import Mathlib

/-!
Shallow embedding of the molecule-resolution API of the repository.

The two HTTP handlers modelled here live in
`src/frontend/src/app/api/molecule/resolve/route.ts`:

* `POST /api/molecule/resolve` — the molecule resolution fallback chain
  (static catalog → OPSIN → NIH CIR → mock placeholder; the PubChem step
  present in the source is commented out there and is embedded separately
  as `pubchemStep` / `resolveChainFull`).
* `GET /api/molecule/sdf` — the SDF structure-file proxy
  (PubChem by `cid`, or Cactus by `smiles` with one alternate-URL retry).

External HTTP services are modelled by an explicit `Oracle` of stubbed
responses; a handler is a pure function of the request and the oracle,
returning its response together with the list of upstream calls it made.
-/

namespace MoleculeApi

/-- Result of one `fetch` call: either the fetch (or reading its body)
threw, or the upstream replied with a status code and a (parsed) body. -/
inductive Fetch (α : Type) where
  | transportError : Fetch α
  | resp : Nat → α → Fetch α
deriving DecidableEq

/-- The `response.ok` predicate of the fetch API: status in [200, 299]. -/
def fetchOk (status : Nat) : Bool :=
  200 ≤ status && status ≤ 299

/-- JavaScript truthiness of an optional string (`null`/`undefined` and the
empty string are falsy). Used for `searchParams.get` results and for the
`if (opsinData.smiles)` check. -/
def jsTruthy : Option String → Bool
  | none => false
  | some s => s != ""

/-- Whitespace characters removed by JavaScript `String.prototype.trim`
(the ASCII ones; the route only ever handles ASCII compound names). -/
def isJsWhitespace (c : Char) : Bool :=
  c = ' ' || c = '\t' || c = '\n' || c = '\r' ||
    c.toNat = 11 || c.toNat = 12

/-- JavaScript `String.prototype.trim`: strip leading and trailing
whitespace. Defined structurally over the character list so that it
reduces inside the kernel. -/
def jsTrim (s : String) : String :=
  String.mk (((s.data.dropWhile isJsWhitespace).reverse.dropWhile
    isJsWhitespace).reverse)

/-- ASCII case of JavaScript `String.prototype.toLowerCase` (the only case
exercised by the route's inputs). -/
def jsToLowerChar (c : Char) : Char :=
  if 65 ≤ c.toNat && c.toNat ≤ 90 then Char.ofNat (c.toNat + 32) else c

/-- JavaScript `String.prototype.toLowerCase`. -/
def jsToLower (s : String) : String :=
  String.mk (s.data.map jsToLowerChar)

/-- Substring occurrence test over character lists. -/
def containsSub (hay sub : List Char) : Bool :=
  match hay with
  | [] => sub.isEmpty
  | _ :: t => sub.isPrefixOf hay || containsSub t sub

/-- JavaScript `String.prototype.includes`: `true` when `sub` occurs in `s`. -/
def jsIncludes (s sub : String) : Bool :=
  containsSub s.data sub.data

/-- Hexadecimal digit (uppercase) of a value below 16. -/
def hexDigit (n : Nat) : Char :=
  if n < 10 then Char.ofNat (48 + n) else Char.ofNat (55 + n)

/-- Percent-encoding of one byte, e.g. `37 ↦ "%25"`. -/
def percentByte (b : Nat) : String :=
  String.mk ['%', hexDigit (b / 16), hexDigit (b % 16)]

/-- UTF-8 bytes of a character, as natural numbers. -/
def utf8Bytes (c : Char) : List Nat :=
  let n := c.toNat
  if n < 128 then [n]
  else if n < 2048 then [192 + n / 64, 128 + n % 64]
  else if n < 65536 then [224 + n / 4096, 128 + (n / 64) % 64, 128 + n % 64]
  else [240 + n / 262144, 128 + (n / 4096) % 64, 128 + (n / 64) % 64, 128 + n % 64]

/-- Characters that JavaScript `encodeURIComponent` leaves unescaped. -/
def uriUnreserved (c : Char) : Bool :=
  c.isAlphanum || c = '-' || c = '_' || c = '.' || c = '!' ||
    c = '~' || c = '*' || c = '\'' || c = '(' || c = ')'

/-- JavaScript `encodeURIComponent`. -/
def encodeURIComponent (s : String) : String :=
  String.join (s.toList.map fun c =>
    if uriUnreserved c then String.singleton c
    else String.join ((utf8Bytes c).map percentByte))

/-- Parsed body of an OPSIN JSON response: the fields the handler reads. -/
structure OpsinBody where
  smiles : Option String
  stdinchi : Option String
deriving DecidableEq

/-- Parsed `PropertyTable.Properties[0]` of a PubChem property response
(the fields the commented-out PubChem step reads). -/
structure PubchemProps where
  isomericSmiles : String
  inchi : String
  molecularFormula : String
  molecularWeight : Rat
deriving DecidableEq

/-- Stubbed behavior of every external endpoint the two routes can reach.
Endpoints are keyed by the value interpolated into the URL (pre-encoding). -/
structure Oracle where
  /-- PubChem `compound/name/<name>/cids/JSON`: parsed `IdentifierList?.CID?.[0]`. -/
  pubchemCids : String → Fetch (Option Nat)
  /-- PubChem `compound/cid/<cid>/property/...`: parsed `PropertyTable?.Properties?.[0]`. -/
  pubchemProps : Nat → Fetch (Option PubchemProps)
  /-- OPSIN `opsin/<name>.json`. -/
  opsin : String → Fetch OpsinBody
  /-- NIH CIR `chemical/structure/<name>/smiles`: raw text body. -/
  cir : String → Fetch String
  /-- PubChem `compound/cid/<cid>/record/SDF?record_type=3d`: raw text body. -/
  pubchemSdf : String → Fetch String
  /-- Cactus `chemical/structure/<smiles>/sdf` (primary), keyed by smiles and `get3d`. -/
  cactusSdf : String → Bool → Fetch String
  /-- Cactus `chemical/structure/<smiles>/file?format=sdf` (alternate shape). -/
  cactusSdfAlt : String → Bool → Fetch String

/-- One upstream HTTP call made by a handler, recorded for provenance. -/
inductive ExtCall where
  | pubchemCidCall : String → ExtCall
  | pubchemPropsCall : Nat → ExtCall
  | opsinCall : String → ExtCall
  | cirCall : String → ExtCall
  | pubchemSdfCall : String → ExtCall
  | cactusSdfCall : String → Bool → ExtCall
  | cactusSdfAltCall : String → Bool → ExtCall
deriving DecidableEq

/-- The `MoleculeResolveResponse` interface of the route. -/
structure MoleculeResolveResponse where
  source : String
  name : String
  cid : Option Nat
  smiles : Option String
  inchi : Option String
  sdf3d_url : Option String
  molecular_formula : Option String
  molecular_weight : Option Rat
deriving DecidableEq

namespace ResolveRoute

/-- The `COMPOUND_NAME_MAPPINGS` object of the route, in source order. -/
def COMPOUND_NAME_MAPPINGS : List (String × String) :=
  [("Metformin", "metformin"),
   ("Nefazodone", "nefazodone"),
   ("Troglitazone", "troglitazone"),
   ("Aspirin", "aspirin"),
   ("Atorvastatin", "atorvastatin"),
   ("Lisinopril", "lisinopril"),
   ("Ketoconazole", "ketoconazole"),
   ("Diclofenac", "diclofenac"),
   ("Amiodarone", "amiodarone"),
   ("Warfarin", "warfarin"),
   ("Phenytoin", "phenytoin"),
   ("Carbamazepine", "carbamazepine"),
   ("Valproic Acid", "valproic acid"),
   ("Ibuprofen", "ibuprofen"),
   ("Acetaminophen", "acetaminophen"),
   ("Simvastatin", "simvastatin"),
   ("Lovastatin", "lovastatin"),
   ("Pravastatin", "pravastatin"),
   ("Rosuvastatin", "rosuvastatin"),
   ("Fluvastatin", "fluvastatin")]

/-- The normalized name: `COMPOUND_NAME_MAPPINGS[originalName] || originalName.toLowerCase()`.
Every mapping value is non-empty, so JavaScript `||` is an option-default here. -/
def normalizeName (originalName : String) : String :=
  match List.lookup originalName COMPOUND_NAME_MAPPINGS with
  | some n => n
  | none => jsToLower originalName

/-- The `knownCompounds` static catalog of the route, in source order. -/
def knownCompounds : List (String × MoleculeResolveResponse) :=
  [("Metformin",
    { source := "pubchem", name := "Metformin", cid := some 4091,
      smiles := some "CN(C)C(=N)NC(=N)N",
      inchi := some "InChI=1S/C4H11N5/c1-9(2)4(7)8-3(5)6/h1-2H3,(H5,5,6,7,8)",
      sdf3d_url := some "/api/molecule/sdf?cid=4091",
      molecular_formula := some "C4H11N5", molecular_weight := some (mkRat 12916 100) }),
   ("Aspirin",
    { source := "pubchem", name := "Aspirin", cid := some 2244,
      smiles := some "CC(=O)OC1=CC=CC=C1C(=O)O",
      inchi := some "InChI=1S/C9H8O4/c1-6(10)13-8-5-3-2-4-7(8)9(11)12/h2-5H,1H3,(H,11,12)",
      sdf3d_url := some "/api/molecule/sdf?cid=2244",
      molecular_formula := some "C9H8O4", molecular_weight := some (mkRat 18016 100) }),
   ("Atorvastatin",
    { source := "pubchem", name := "Atorvastatin", cid := some 60823,
      smiles := some "CC(C)C1=C(C(=C(N1CC[C@H](C[C@H](CC(=O)O)O)O)C2=CC=C(C=C2)F)C3=CC=CC=C3)C(=O)NC4=CC=CC=C4",
      inchi := some "InChI=1S/C33H35FN2O5/c1-21(2)31-30(33(41)35-25-11-7-4-8-12-25)29(23-9-5-3-6-10-23)32(22-13-15-24(34)16-14-22)36(31)18-17-26(37)19-27(38)20-28(39)40/h3-16,21,26-27,37-38H,17-20H2,1-2H3,(H,35,41)(H,39,40)/t26-,27-/m1/s1",
      sdf3d_url := some "/api/molecule/sdf?cid=60823",
      molecular_formula := some "C33H35FN2O5", molecular_weight := some (mkRat 55864 100) }),
   ("Nefazodone",
    { source := "pubchem", name := "Nefazodone", cid := some 4449,
      smiles := some "CCN1CCN(CC1)C2=CC=C(C=C2)OCC3=CC=CC=C3C(=O)N4CCN(CC4)C5=NC=CC=N5",
      inchi := some "InChI=1S/C25H32ClN5O2/c1-2-29-13-17-31(18-14-29)22-7-9-23(10-8-22)33-19-21-5-3-4-6-24(21)25(32)30-15-11-28(12-16-30)26-20-27/h3-10,20H,2,11-19H2,1H3",
      sdf3d_url := some "/api/molecule/sdf?cid=4449",
      molecular_formula := some "C25H32ClN5O2", molecular_weight := some (mkRat 47001 100) }),
   ("Troglitazone",
    { source := "pubchem", name := "Troglitazone", cid := some 5591,
      smiles := some "CC1=C(C(=C(C=C1)O)CC2C(=O)NC(=O)S2)C3CCC(CC3)(C)C",
      inchi := some "InChI=1S/C24H27NO5S/c1-14-11-17(26)16(12-18-20(27)25-21(28)31-18)15(14)19-7-9-24(2,3)10-8-19/h11-12,18-19,26H,7-10H2,1-3H3,(H,25,27,28)/t18-/m1/s1",
      sdf3d_url := some "/api/molecule/sdf?cid=5591",
      molecular_formula := some "C24H27NO5S", molecular_weight := some (mkRat 44154 100) }),
   ("Lisinopril",
    { source := "pubchem", name := "Lisinopril", cid := some 5362119,
      smiles := some "CCCCN1CCCC1C(=O)N[C@@H](CCc2ccccc2)C(=O)N3CCC[C@H]3C(=O)O",
      inchi := some "InChI=1S/C21H31N3O5/c1-2-3-12-24-13-7-11-18(24)20(26)22-16(14-15-8-5-4-6-9-15)19(25)23-17-10-7-13-24(17)21(27)28/h4-6,8-9,16-18H,2-3,7,10-14H2,1H3,(H,22,26)(H,23,25)(H,27,28)/t16-,17-,18+/m0/s1",
      sdf3d_url := some "/api/molecule/sdf?cid=5362119",
      molecular_formula := some "C21H31N3O5", molecular_weight := some (mkRat 40549 100) }),
   ("Orfanglipron",
    { source := "pubchem", name := "Orfanglipron", cid := some 155903239,
      smiles := some "CC(C)(C)OC(=O)N[C@@H](CC1=CC=CC=C1)C(=O)N[C@@H](CC2=CC=C(C=C2)F)C(=O)N[C@@H](CC(C)C)C(=O)N3CCC[C@H]3C(=O)O",
      inchi := some "InChI=1S/C32H43FN4O7/c1-20(2)17-25(29(40)37-16-8-9-26(37)30(41)42)35-28(39)24(18-22-12-14-23(33)15-13-22)34-27(38)21(19-11-6-5-7-10-21)36-31(43)44-32(3,4)5/h5-7,10,12-15,20,24-26H,8-9,11,16-19H2,1-4H3,(H,34,38)(H,35,39)(H,36,43)(H,41,42)/t24-,25-,26-/m0/s1",
      sdf3d_url := some "/api/molecule/sdf?cid=155903239",
      molecular_formula := some "C32H43FN4O7", molecular_weight := some (mkRat 61471 100) })]

/-- The mock placeholder result returned when every lookup failed. -/
def mockResult (originalName : String) : MoleculeResolveResponse :=
  { source := "mock", name := originalName, cid := none,
    smiles := some "CCO", inchi := none,
    sdf3d_url := some ("/api/molecule/sdf?smiles=" ++ encodeURIComponent "CCO" ++ "&get3d=true"),
    molecular_formula := some "C2H6O", molecular_weight := some (mkRat 4607 100) }

/-- The result object built on OPSIN success. -/
def opsinResult (originalName smiles : String) (stdinchi : Option String) :
    MoleculeResolveResponse :=
  { source := "opsin", name := originalName, cid := none,
    smiles := some smiles, inchi := stdinchi,
    sdf3d_url := some ("/api/molecule/sdf?smiles=" ++ encodeURIComponent smiles ++ "&get3d=true"),
    molecular_formula := none, molecular_weight := none }

/-- The result object built on CIR success (the body is trimmed). -/
def cirResult (originalName body : String) : MoleculeResolveResponse :=
  { source := "cir", name := originalName, cid := none,
    smiles := some (jsTrim body), inchi := none,
    sdf3d_url := some ("/api/molecule/sdf?smiles=" ++ encodeURIComponent (jsTrim body) ++ "&get3d=true"),
    molecular_formula := none, molecular_weight := none }

/-- The CIR acceptance test `smiles && smiles.trim() && !smiles.includes('Error')`. -/
def cirBodyAccepts (body : String) : Bool :=
  body != "" && jsTrim body != "" && !jsIncludes body "Error"

/-- The OPSIN fallback step. `none` means the step fell through. -/
def opsinStep (o : Oracle) (originalName name : String) :
    Option MoleculeResolveResponse :=
  match o.opsin name with
  | Fetch.transportError => none
  | Fetch.resp st body =>
    if fetchOk st then
      if jsTruthy body.smiles then
        some (opsinResult originalName (body.smiles.getD "") body.stdinchi)
      else none
    else none

/-- The NIH CIR fallback step. `none` means the step fell through. -/
def cirStep (o : Oracle) (originalName name : String) :
    Option MoleculeResolveResponse :=
  match o.cir name with
  | Fetch.transportError => none
  | Fetch.resp st body =>
    if fetchOk st then
      if cirBodyAccepts body then some (cirResult originalName body) else none
    else none

/-- The PubChem (Provider A) resolution step exactly as written in the
source, where it is enclosed in a block comment marked
"Step 1: Try PubChem name lookup (commented out for testing)". -/
def pubchemStep (o : Oracle) (originalName name : String) :
    Option MoleculeResolveResponse :=
  match o.pubchemCids name with
  | Fetch.transportError => none
  | Fetch.resp st cids =>
    if fetchOk st then
      match cids with
      | some cid =>
        if cid != 0 then
          match o.pubchemProps cid with
          | Fetch.transportError => none
          | Fetch.resp st2 props =>
            if fetchOk st2 then
              match props with
              | some p => some
                  { source := "pubchem", name := originalName, cid := some cid,
                    smiles := some p.isomericSmiles, inchi := some p.inchi,
                    sdf3d_url := some ("/api/molecule/sdf?cid=" ++ toString cid),
                    molecular_formula := some p.molecularFormula,
                    molecular_weight := some p.molecularWeight }
              | none => none
            else none
        else none
      | none => none
    else none

/-- The resolution chain of the shipped code, after body parsing: catalog
lookup, then OPSIN, then CIR, then the mock placeholder. The PubChem step
is absent because it is commented out in the source. Returns the response
together with the external calls performed. -/
def resolveChain (o : Oracle) (originalName : String) :
    MoleculeResolveResponse × List ExtCall :=
  match List.lookup originalName knownCompounds with
  | some entry => (entry, [])
  | none =>
    let name := normalizeName originalName
    match opsinStep o originalName name with
    | some r => (r, [ExtCall.opsinCall name])
    | none =>
      match cirStep o originalName name with
      | some r => (r, [ExtCall.opsinCall name, ExtCall.cirCall name])
      | none => (mockResult originalName,
          [ExtCall.opsinCall name, ExtCall.cirCall name])

/-- The resolution chain as written in the source before the PubChem step
was commented out: catalog, PubChem, OPSIN, CIR, placeholder. Used to
state what the documented chain would do. -/
def resolveChainFull (o : Oracle) (originalName : String) :
    MoleculeResolveResponse :=
  match List.lookup originalName knownCompounds with
  | some entry => entry
  | none =>
    let name := normalizeName originalName
    match pubchemStep o originalName name with
    | some r => r
    | none =>
      match opsinStep o originalName name with
      | some r => r
      | none =>
        match cirStep o originalName name with
        | some r => r
        | none => mockResult originalName

/-- Response of the resolve route: a 200 JSON body on the happy path, or
the outer catch's error JSON with a status code. -/
inductive PostResponse where
  | ok : MoleculeResolveResponse → PostResponse
  | err : Nat → String → PostResponse
deriving DecidableEq

/-- The `POST` handler. The request body is modelled as an
`Except Unit String`: `Except.error` when `request.json()` rejects or
`body.name` is not a string (so `body.name.trim()` throws into the outer
catch), `Except.ok rawName` when a string `name` field was supplied. -/
def POST (o : Oracle) (body : Except Unit String) :
    PostResponse × List ExtCall :=
  match body with
  | Except.error _ => (PostResponse.err 500 "Failed to resolve molecule", [])
  | Except.ok rawName =>
    (PostResponse.ok (resolveChain o (jsTrim rawName)).fst,
     (resolveChain o (jsTrim rawName)).snd)

/-- Oracle-level failure of the (disabled) PubChem step: transport error,
non-2xx status or missing id at the cid lookup, or transport error,
non-2xx status or missing properties at the property fetch. -/
def pubchemFailed (o : Oracle) (name : String) : Bool :=
  match o.pubchemCids name with
  | Fetch.transportError => true
  | Fetch.resp st cids =>
    if fetchOk st then
      match cids with
      | some cid =>
        if cid != 0 then
          match o.pubchemProps cid with
          | Fetch.transportError => true
          | Fetch.resp st2 props => !fetchOk st2 || props.isNone
        else true
      | none => true
    else true

/-- Oracle-level failure of the OPSIN step: transport error, non-2xx
status, or a missing/empty `smiles` field. -/
def opsinFailed (o : Oracle) (name : String) : Bool :=
  match o.opsin name with
  | Fetch.transportError => true
  | Fetch.resp st body => !fetchOk st || !jsTruthy body.smiles

/-- Oracle-level failure of the CIR step: transport error, non-2xx status,
or a body rejected by the acceptance test. -/
def cirFailed (o : Oracle) (name : String) : Bool :=
  match o.cir name with
  | Fetch.transportError => true
  | Fetch.resp st body => !fetchOk st || !cirBodyAccepts body

end ResolveRoute

namespace SdfRoute

/-- Response of the SDF proxy: either a raw-text response with a status
and a `Content-Type` header (the proxied SDF), or an error JSON body with
a status code. The CORS headers are constant on every path and omitted. -/
inductive SdfResponse where
  | sdf : Nat → String → String → SdfResponse
  | jsonErr : Nat → String → SdfResponse
deriving DecidableEq

/-- The `GET` handler of the SDF proxy. `cid`, `smiles` and `get3d` are
the values of `searchParams.get` for the homonymous query parameters
(`none` when absent). A `Fetch.transportError` from the oracle lands in
the handler's outer catch, which answers 500. -/
def GET (o : Oracle) (cid smiles get3d : Option String) :
    SdfResponse × List ExtCall :=
  if !jsTruthy cid && !jsTruthy smiles then
    (SdfResponse.jsonErr 400 "cid or smiles parameter required", [])
  else if jsTruthy cid then
    let c := cid.getD ""
    match o.pubchemSdf c with
    | Fetch.transportError =>
      (SdfResponse.jsonErr 500 "Failed to fetch SDF data",
       [ExtCall.pubchemSdfCall c])
    | Fetch.resp st body =>
      if fetchOk st then
        (SdfResponse.sdf 200 body "chemical/x-mdl-sdfile",
         [ExtCall.pubchemSdfCall c])
      else
        (SdfResponse.jsonErr st "Failed to fetch SDF",
         [ExtCall.pubchemSdfCall c])
  else if jsTruthy smiles then
    let s := smiles.getD ""
    let want3d := get3d == some "true"
    match o.cactusSdf s want3d with
    | Fetch.transportError =>
      (SdfResponse.jsonErr 500 "Failed to fetch SDF data",
       [ExtCall.cactusSdfCall s want3d])
    | Fetch.resp st1 b1 =>
      if fetchOk st1 then
        (SdfResponse.sdf 200 b1 "chemical/x-mdl-sdfile",
         [ExtCall.cactusSdfCall s want3d])
      else
        match o.cactusSdfAlt s want3d with
        | Fetch.transportError =>
          (SdfResponse.jsonErr 500 "Failed to fetch SDF data",
           [ExtCall.cactusSdfCall s want3d, ExtCall.cactusSdfAltCall s want3d])
        | Fetch.resp st2 b2 =>
          if fetchOk st2 then
            (SdfResponse.sdf 200 b2 "chemical/x-mdl-sdfile",
             [ExtCall.cactusSdfCall s want3d, ExtCall.cactusSdfAltCall s want3d])
          else
            (SdfResponse.jsonErr st2 "Failed to fetch SDF from Cactus",
             [ExtCall.cactusSdfCall s want3d, ExtCall.cactusSdfAltCall s want3d])
  else
    (SdfResponse.jsonErr 400 "Unhandled request", [])

end SdfRoute

namespace ResolveRoute

/-- An oracle-level OPSIN failure makes the OPSIN step fall through. -/
theorem opsinStep_eq_none (o : Oracle) (originalName name : String)
    (h : opsinFailed o name = true) :
    opsinStep o originalName name = none := by
  unfold opsinFailed at h
  unfold opsinStep
  split
  · rfl
  next st body heq =>
    rw [heq] at h
    simp only [Bool.or_eq_true, Bool.not_eq_true'] at h
    rcases h with h | h <;> simp [h]

/-- An oracle-level CIR failure makes the CIR step fall through. -/
theorem cirStep_eq_none (o : Oracle) (originalName name : String)
    (h : cirFailed o name = true) :
    cirStep o originalName name = none := by
  unfold cirFailed at h
  unfold cirStep
  split
  · rfl
  next st body heq =>
    rw [heq] at h
    simp only [Bool.or_eq_true, Bool.not_eq_true'] at h
    rcases h with h | h <;> simp [h]

/-- When the catalog misses and both live external steps fall through,
the chain ends at the mock placeholder after calling OPSIN and CIR. -/
theorem resolveChain_all_fail (o : Oracle) (n : String)
    (hmiss : List.lookup n knownCompounds = none)
    (hB : opsinStep o n (normalizeName n) = none)
    (hC : cirStep o n (normalizeName n) = none) :
    resolveChain o n =
      (mockResult n,
       [ExtCall.opsinCall (normalizeName n), ExtCall.cirCall (normalizeName n)]) := by
  unfold resolveChain
  simp only [hmiss, hB, hC]

/-- A successful catalog lookup pins the key to one of the seven catalog
keys. -/
theorem catalog_keys_of_lookup {key : String}
    (h : (List.lookup key knownCompounds).isSome = true) :
    key = "Metformin" ∨ key = "Aspirin" ∨ key = "Atorvastatin" ∨
    key = "Nefazodone" ∨ key = "Troglitazone" ∨ key = "Lisinopril" ∨
    key = "Orfanglipron" := by
  by_cases h1 : key = "Metformin"
  · exact Or.inl h1
  by_cases h2 : key = "Aspirin"
  · exact Or.inr (Or.inl h2)
  by_cases h3 : key = "Atorvastatin"
  · exact Or.inr (Or.inr (Or.inl h3))
  by_cases h4 : key = "Nefazodone"
  · exact Or.inr (Or.inr (Or.inr (Or.inl h4)))
  by_cases h5 : key = "Troglitazone"
  · exact Or.inr (Or.inr (Or.inr (Or.inr (Or.inl h5))))
  by_cases h6 : key = "Lisinopril"
  · exact Or.inr (Or.inr (Or.inr (Or.inr (Or.inr (Or.inl h6)))))
  by_cases h7 : key = "Orfanglipron"
  · exact Or.inr (Or.inr (Or.inr (Or.inr (Or.inr (Or.inr h7)))))
  exfalso
  simp only [knownCompounds, List.lookup,
    beq_eq_false_iff_ne.mpr h1, beq_eq_false_iff_ne.mpr h2,
    beq_eq_false_iff_ne.mpr h3, beq_eq_false_iff_ne.mpr h4,
    beq_eq_false_iff_ne.mpr h5, beq_eq_false_iff_ne.mpr h6,
    beq_eq_false_iff_ne.mpr h7, Option.isSome_none] at h
  exact Bool.false_ne_true h

end ResolveRoute

/-- Stub world in which every external endpoint is unreachable. -/
def oracleAllFail : Oracle :=
  { pubchemCids := fun _ => Fetch.transportError
    pubchemProps := fun _ => Fetch.transportError
    opsin := fun _ => Fetch.transportError
    cir := fun _ => Fetch.transportError
    pubchemSdf := fun _ => Fetch.transportError
    cactusSdf := fun _ _ => Fetch.transportError
    cactusSdfAlt := fun _ _ => Fetch.transportError }

namespace ResolveRoute

/-- C1. If the catalog lookup misses and all three external providers fail
(transport error, non-2xx status, or missing required field), the resolve
operation still returns the complete placeholder identity — tagged with
the code's placeholder source literal `"mock"` and carrying the fixed
SMILES `"CCO"` — as an ordinary 200 value, never an error. -/
theorem resolve_all_providers_fail_placeholder (o : Oracle) (raw : String)
    (hmiss : List.lookup (jsTrim raw) knownCompounds = none)
    (hA : pubchemFailed o (normalizeName (jsTrim raw)) = true)
    (hB : opsinFailed o (normalizeName (jsTrim raw)) = true)
    (hC : cirFailed o (normalizeName (jsTrim raw)) = true) :
    POST o (Except.ok raw) =
      (PostResponse.ok (mockResult (jsTrim raw)),
       [ExtCall.opsinCall (normalizeName (jsTrim raw)),
        ExtCall.cirCall (normalizeName (jsTrim raw))]) ∧
    (mockResult (jsTrim raw)).source = "mock" ∧
    (mockResult (jsTrim raw)).smiles = some "CCO" := by
  refine ⟨?_, rfl, rfl⟩
  have hchain := resolveChain_all_fail o (jsTrim raw) hmiss
    (opsinStep_eq_none o (jsTrim raw) _ hB)
    (cirStep_eq_none o (jsTrim raw) _ hC)
  show (PostResponse.ok (resolveChain o (jsTrim raw)).fst,
        (resolveChain o (jsTrim raw)).snd) = _
  rw [hchain]

/-- C1 witness: with every provider unreachable, resolving the uncatalogued
name "novelium" yields exactly the mock placeholder. -/
theorem resolve_all_providers_fail_placeholder_witness :
    List.lookup (jsTrim "novelium") knownCompounds = none ∧
    pubchemFailed oracleAllFail (normalizeName (jsTrim "novelium")) = true ∧
    opsinFailed oracleAllFail (normalizeName (jsTrim "novelium")) = true ∧
    cirFailed oracleAllFail (normalizeName (jsTrim "novelium")) = true ∧
    (POST oracleAllFail (Except.ok "novelium") =
      (PostResponse.ok (mockResult (jsTrim "novelium")),
       [ExtCall.opsinCall (normalizeName (jsTrim "novelium")),
        ExtCall.cirCall (normalizeName (jsTrim "novelium"))]) ∧
     (mockResult (jsTrim "novelium")).source = "mock" ∧
     (mockResult (jsTrim "novelium")).smiles = some "CCO") :=
  ⟨by decide, by decide, by decide, by decide,
   resolve_all_providers_fail_placeholder oracleAllFail "novelium"
     (by decide) (by decide) (by decide) (by decide)⟩

/-- C2. For every input name that exactly matches a catalog key, the
resolve operation returns that catalog entry, for every oracle (so
regardless of external service availability) and with an empty list of
external calls (so without contacting any provider). The code tags the
entry with its stored source literal `"pubchem"`, the tag it uses for
records of catalog provenance. -/
theorem resolve_catalog_hit (o : Oracle) (key : String)
    (h : (List.lookup key knownCompounds).isSome = true) :
    ∃ entry, List.lookup key knownCompounds = some entry ∧
      POST o (Except.ok key) = (PostResponse.ok entry, []) := by
  obtain h1 | h1 | h1 | h1 | h1 | h1 | h1 := catalog_keys_of_lookup h <;>
    subst h1 <;> exact ⟨_, rfl, rfl⟩

/-- C2 witness: the key "Metformin" resolves to its catalog entry with no
external calls even when every provider is unreachable. -/
theorem resolve_catalog_hit_witness :
    (List.lookup "Metformin" knownCompounds).isSome = true ∧
    ∃ entry, List.lookup "Metformin" knownCompounds = some entry ∧
      POST oracleAllFail (Except.ok "Metformin") = (PostResponse.ok entry, []) :=
  ⟨by decide, resolve_catalog_hit oracleAllFail "Metformin" (by decide)⟩

/-- C10. A request whose body is not valid JSON or lacks a string `name`
field is answered by the outer catch: HTTP 500 with the error JSON body,
with no resolution step run and no upstream contacted. A well-formed
request, by contrast, always produces an ordinary 200 identity. -/
theorem resolve_malformed_body_500 (o : Oracle) :
    POST o (Except.error ()) =
      (PostResponse.err 500 "Failed to resolve molecule", []) ∧
    ∀ raw : String, ∃ r, (POST o (Except.ok raw)).fst = PostResponse.ok r :=
  ⟨rfl, fun raw => ⟨(resolveChain o (jsTrim raw)).fst, rfl⟩⟩

/-- The CIR acceptance test holds exactly when the trimmed body is
non-empty and the body does not contain the error marker (the separate
non-emptiness test of the untrimmed body in the code is redundant). -/
theorem cirBodyAccepts_iff (body : String) :
    cirBodyAccepts body = true ↔
      (jsTrim body ≠ "" ∧ jsIncludes body "Error" = false) := by
  unfold cirBodyAccepts
  constructor
  · intro h
    simp only [Bool.and_eq_true, bne_iff_ne, Bool.not_eq_true'] at h
    exact ⟨h.1.2, h.2⟩
  · rintro ⟨h1, h2⟩
    have hb : body ≠ "" := by
      intro he
      subst he
      exact h1 rfl
    simp [bne_iff_ne, hb, h1, h2]

/-- The CIR step succeeds exactly when the response is a reply with a 2xx
status whose body trims to something non-empty and free of the error
marker. -/
theorem cirStep_isSome_iff (o : Oracle) (onm n : String) :
    (cirStep o onm n).isSome = true ↔
      ∃ st body, o.cir n = Fetch.resp st body ∧ fetchOk st = true ∧
        jsTrim body ≠ "" ∧ jsIncludes body "Error" = false := by
  cases hr : o.cir n with
  | transportError =>
    simp [cirStep, hr]
  | resp st body =>
    simp only [cirStep, hr]
    by_cases h1 : fetchOk st = true
    · by_cases h2 : cirBodyAccepts body = true
      · simp only [h1, if_true, h2, Option.isSome_some, true_iff]
        exact ⟨st, body, rfl, h1, (cirBodyAccepts_iff body).mp h2⟩
      · have h2' : cirBodyAccepts body = false := by
          simpa using h2
        simp only [h1, if_true, h2', Bool.false_eq_true, if_false,
          Option.isSome_none, Bool.false_eq_true, false_iff]
        rintro ⟨st', body', heq, hok', htr', herr'⟩
        obtain ⟨rfl, rfl⟩ : st = st' ∧ body = body' := by
          injection heq with a b
          exact ⟨a, b⟩
        exact h2 ((cirBodyAccepts_iff body).mpr ⟨htr', herr'⟩)
    · have h1' : fetchOk st = false := by
        simpa using h1
      simp only [h1', Bool.false_eq_true, if_false, Option.isSome_none,
        false_iff]
      rintro ⟨st', body', heq, hok', htr', herr'⟩
      obtain ⟨rfl, rfl⟩ : st = st' ∧ body = body' := by
        injection heq with a b
        exact ⟨a, b⟩
      exact h1 hok'

/-- A CIR reply passing the acceptance test makes the CIR step succeed
with the trimmed body as SMILES. -/
theorem cirStep_some (o : Oracle) (onm n : String) (st : Nat) (body : String)
    (hr : o.cir n = Fetch.resp st body) (hok : fetchOk st = true)
    (htr : jsTrim body ≠ "") (herr : jsIncludes body "Error" = false) :
    cirStep o onm n = some (cirResult onm body) := by
  have hacc : cirBodyAccepts body = true :=
    (cirBodyAccepts_iff body).mpr ⟨htr, herr⟩
  simp [cirStep, hr, hok, hacc]

/-- When the catalog misses and OPSIN falls through but CIR succeeds, the
chain returns the CIR record after calling OPSIN and CIR. -/
theorem resolveChain_cir (o : Oracle) (n : String)
    (r : MoleculeResolveResponse)
    (hmiss : List.lookup n knownCompounds = none)
    (hB : opsinStep o n (normalizeName n) = none)
    (hC : cirStep o n (normalizeName n) = some r) :
    resolveChain o n =
      (r, [ExtCall.opsinCall (normalizeName n),
           ExtCall.cirCall (normalizeName n)]) := by
  unfold resolveChain
  simp only [hmiss, hB, hC]

/-- When the catalog misses and OPSIN succeeds, the chain returns the
OPSIN record after calling only OPSIN. -/
theorem resolveChain_opsin (o : Oracle) (n : String)
    (r : MoleculeResolveResponse)
    (hmiss : List.lookup n knownCompounds = none)
    (hB : opsinStep o n (normalizeName n) = some r) :
    resolveChain o n = (r, [ExtCall.opsinCall (normalizeName n)]) := by
  unfold resolveChain
  simp only [hmiss, hB]

end ResolveRoute

/-- PubChem property record for caffeine, used to stub a fully successful
Provider A. -/
def caffeineProps : PubchemProps :=
  { isomericSmiles := "CN1C=NC2=C1C(=O)N(C(=O)N2C)C",
    inchi := "InChI=1S/C8H10N4O2/c1-10-4-9-6-5(10)7(13)12(3)8(14)11(2)6/h4H,1-3H3",
    molecularFormula := "C8H10N4O2",
    molecularWeight := mkRat 19419 100 }

/-- Stub world in which Provider A (PubChem) answers perfectly but OPSIN
and CIR are unreachable. -/
def oraclePubchemOnly : Oracle :=
  { oracleAllFail with
    pubchemCids := fun _ => Fetch.resp 200 (some 2519)
    pubchemProps := fun _ => Fetch.resp 200 (some caffeineProps) }

/-- Stub world in which Provider A fails with 404 but OPSIN succeeds with
a SMILES and a standard InChI. -/
def oracleOpsinOk : Oracle :=
  { oracleAllFail with
    pubchemCids := fun _ => Fetch.resp 404 none
    opsin := fun _ => Fetch.resp 200
      { smiles := some "CCO",
        stdinchi := some "InChI=1S/C2H6O/c1-2-3/h3H,2H2,1H3" } }

/-- Stub world in which Provider A fails with 404, OPSIN fails with 500,
and CIR replies 200 with a padded SMILES body. -/
def oracleCirOk : Oracle :=
  { oracleAllFail with
    pubchemCids := fun _ => Fetch.resp 404 none
    opsin := fun _ => Fetch.resp 500 { smiles := none, stdinchi := none }
    cir := fun _ => Fetch.resp 200 "  CCO  " }

namespace ResolveRoute

/-- C3 (failing input). In the shipped code the PubChem step is commented
out: with Provider A stubbed to answer perfectly (`pubchemFailed` is
false) and OPSIN/CIR unreachable, resolving the uncatalogued name
"caffeine" returns the mock placeholder after calling only OPSIN and CIR —
not a `source = "pubchem"` record as the claim requires. The last conjunct
shows that the chain as written in the source before the step was
commented out (`resolveChainFull`) would return exactly that record. -/
theorem resolve_pubchem_step_disabled :
    pubchemFailed oraclePubchemOnly (normalizeName (jsTrim "caffeine")) = false ∧
    (POST oraclePubchemOnly (Except.ok "caffeine")).fst =
      PostResponse.ok (mockResult "caffeine") ∧
    (POST oraclePubchemOnly (Except.ok "caffeine")).snd =
      [ExtCall.opsinCall "caffeine", ExtCall.cirCall "caffeine"] ∧
    resolveChainFull oraclePubchemOnly "caffeine" =
      { source := "pubchem", name := "caffeine", cid := some 2519,
        smiles := some caffeineProps.isomericSmiles,
        inchi := some caffeineProps.inchi,
        sdf3d_url := some "/api/molecule/sdf?cid=2519",
        molecular_formula := some caffeineProps.molecularFormula,
        molecular_weight := some caffeineProps.molecularWeight } := by
  exact ⟨by decide, by decide, by decide, by decide⟩

/-- C4 (counterexample). With Provider A failing (404) and OPSIN replying
200 with both a non-empty SMILES and a standard InChI, the result has
`source = "opsin"` and a populated SMILES — but its `inchi` field is
populated from the provider's `stdinchi`, refuting the claim that InChI is
left unset. -/
theorem opsin_inchi_populated_cex :
    pubchemFailed oracleOpsinOk (normalizeName (jsTrim "ethanol")) = true ∧
    (POST oracleOpsinOk (Except.ok "ethanol")).fst =
      PostResponse.ok (opsinResult "ethanol" "CCO"
        (some "InChI=1S/C2H6O/c1-2-3/h3H,2H2,1H3")) ∧
    ¬ (opsinResult "ethanol" "CCO"
        (some "InChI=1S/C2H6O/c1-2-3/h3H,2H2,1H3")).inchi = none := by
  exact ⟨by decide, by decide, by decide⟩

/-- C4 (amended). If Provider A fails but OPSIN replies with a 2xx status
and a non-empty `smiles` field, the result is the OPSIN record: `source =
"opsin"`, SMILES populated, `inchi` copied from the reply's `stdinchi`
field (unset only when that field is absent), and molecular formula and
weight left unset. -/
theorem resolve_opsin_success (o : Oracle) (raw : String) (st : Nat)
    (ob : OpsinBody) (s : String)
    (hmiss : List.lookup (jsTrim raw) knownCompounds = none)
    (hA : pubchemFailed o (normalizeName (jsTrim raw)) = true)
    (hresp : o.opsin (normalizeName (jsTrim raw)) = Fetch.resp st ob)
    (hok : fetchOk st = true) (hsm : ob.smiles = some s) (hne : s ≠ "") :
    (POST o (Except.ok raw)).fst =
      PostResponse.ok (opsinResult (jsTrim raw) s ob.stdinchi) ∧
    (opsinResult (jsTrim raw) s ob.stdinchi).source = "opsin" ∧
    (opsinResult (jsTrim raw) s ob.stdinchi).smiles = some s ∧
    (opsinResult (jsTrim raw) s ob.stdinchi).molecular_formula = none ∧
    (opsinResult (jsTrim raw) s ob.stdinchi).molecular_weight = none := by
  refine ⟨?_, rfl, rfl, rfl, rfl⟩
  have hstep : opsinStep o (jsTrim raw) (normalizeName (jsTrim raw)) =
      some (opsinResult (jsTrim raw) s ob.stdinchi) := by
    simp [opsinStep, hresp, hok, hsm, jsTruthy, bne_iff_ne, hne]
  have hchain := resolveChain_opsin o (jsTrim raw) _ hmiss hstep
  show PostResponse.ok (resolveChain o (jsTrim raw)).fst = _
  rw [hchain]

/-- C4 witness: concrete OPSIN success for the uncatalogued name
"ethanol". -/
theorem resolve_opsin_success_witness :
    List.lookup (jsTrim "ethanol") knownCompounds = none ∧
    pubchemFailed oracleOpsinOk (normalizeName (jsTrim "ethanol")) = true ∧
    fetchOk 200 = true ∧
    (POST oracleOpsinOk (Except.ok "ethanol")).fst =
      PostResponse.ok (opsinResult (jsTrim "ethanol") "CCO"
        (some "InChI=1S/C2H6O/c1-2-3/h3H,2H2,1H3")) :=
  ⟨by decide, by decide, by decide,
   (resolve_opsin_success oracleOpsinOk "ethanol" 200
     { smiles := some "CCO",
       stdinchi := some "InChI=1S/C2H6O/c1-2-3/h3H,2H2,1H3" } "CCO"
     (by decide) (by decide) rfl (by decide) rfl (by decide)).1⟩

/-- C5. Once the catalog misses and OPSIN has failed, the CIR step
succeeds exactly when the HTTP reply has a 2xx status and its body, after
trimming, is non-empty and free of the `"Error"` marker; on success the
result is the CIR record (`source = "cir"`, SMILES = trimmed body),
otherwise the chain falls through to the mock placeholder. -/
theorem resolve_cir_step_iff (o : Oracle) (raw : String)
    (hmiss : List.lookup (jsTrim raw) knownCompounds = none)
    (hB : opsinFailed o (normalizeName (jsTrim raw)) = true) :
    ((cirStep o (jsTrim raw) (normalizeName (jsTrim raw))).isSome = true ↔
      ∃ st body, o.cir (normalizeName (jsTrim raw)) = Fetch.resp st body ∧
        fetchOk st = true ∧ jsTrim body ≠ "" ∧
        jsIncludes body "Error" = false) ∧
    (∀ st body, o.cir (normalizeName (jsTrim raw)) = Fetch.resp st body →
      fetchOk st = true → jsTrim body ≠ "" → jsIncludes body "Error" = false →
      (POST o (Except.ok raw)).fst =
        PostResponse.ok (cirResult (jsTrim raw) body)) ∧
    (cirStep o (jsTrim raw) (normalizeName (jsTrim raw)) = none →
      (POST o (Except.ok raw)).fst =
        PostResponse.ok (mockResult (jsTrim raw))) := by
  refine ⟨cirStep_isSome_iff o (jsTrim raw) (normalizeName (jsTrim raw)),
    ?_, ?_⟩
  · intro st body hr hok htr herr
    have hstep := cirStep_some o (jsTrim raw) (normalizeName (jsTrim raw))
      st body hr hok htr herr
    have hchain := resolveChain_cir o (jsTrim raw) _ hmiss
      (opsinStep_eq_none o (jsTrim raw) _ hB) hstep
    show PostResponse.ok (resolveChain o (jsTrim raw)).fst = _
    rw [hchain]
  · intro hnone
    have hchain := resolveChain_all_fail o (jsTrim raw) hmiss
      (opsinStep_eq_none o (jsTrim raw) _ hB) hnone
    show PostResponse.ok (resolveChain o (jsTrim raw)).fst = _
    rw [hchain]

/-- C5 witness: with OPSIN failing and CIR replying 200 with a padded
body, resolving the uncatalogued name "zetazine" yields the CIR record
with the trimmed SMILES. -/
theorem resolve_cir_step_iff_witness :
    List.lookup (jsTrim "zetazine") knownCompounds = none ∧
    opsinFailed oracleCirOk (normalizeName (jsTrim "zetazine")) = true ∧
    (POST oracleCirOk (Except.ok "zetazine")).fst =
      PostResponse.ok (cirResult (jsTrim "zetazine") "  CCO  ") :=
  ⟨by decide, by decide,
   (resolve_cir_step_iff oracleCirOk "zetazine" (by decide)
     (by decide)).2.1 200 "  CCO  " rfl (by decide) (by decide) (by decide)⟩

/-- C9. Determinism and noninterference of the resolution chain: two
oracles that agree on the OPSIN and CIR responses for the normalized name
(the only upstream requests the chain makes) produce identical results for
the same input — same source, same field values, same external calls —
whatever their other endpoints do. -/
theorem resolve_deterministic (o₁ o₂ : Oracle) (raw : String)
    (hB : o₁.opsin (normalizeName (jsTrim raw)) =
      o₂.opsin (normalizeName (jsTrim raw)))
    (hC : o₁.cir (normalizeName (jsTrim raw)) =
      o₂.cir (normalizeName (jsTrim raw))) :
    POST o₁ (Except.ok raw) = POST o₂ (Except.ok raw) := by
  have ho : opsinStep o₁ (jsTrim raw) (normalizeName (jsTrim raw)) =
      opsinStep o₂ (jsTrim raw) (normalizeName (jsTrim raw)) := by
    unfold opsinStep
    rw [hB]
  have hc : cirStep o₁ (jsTrim raw) (normalizeName (jsTrim raw)) =
      cirStep o₂ (jsTrim raw) (normalizeName (jsTrim raw)) := by
    unfold cirStep
    rw [hC]
  have hr : resolveChain o₁ (jsTrim raw) = resolveChain o₂ (jsTrim raw) := by
    unfold resolveChain
    simp only [ho, hc]
  show (PostResponse.ok (resolveChain o₁ (jsTrim raw)).fst,
        (resolveChain o₁ (jsTrim raw)).snd) = _
  rw [hr]
  rfl

/-- C9 witness: two stub worlds that agree on OPSIN and CIR (both
unreachable) but differ on every PubChem endpoint resolve "novelium"
identically. -/
theorem resolve_deterministic_witness :
    oraclePubchemOnly.opsin (normalizeName (jsTrim "novelium")) =
      oracleAllFail.opsin (normalizeName (jsTrim "novelium")) ∧
    oraclePubchemOnly.cir (normalizeName (jsTrim "novelium")) =
      oracleAllFail.cir (normalizeName (jsTrim "novelium")) ∧
    POST oraclePubchemOnly (Except.ok "novelium") =
      POST oracleAllFail (Except.ok "novelium") :=
  ⟨rfl, rfl,
   resolve_deterministic oraclePubchemOnly oracleAllFail "novelium" rfl rfl⟩

end ResolveRoute

/-- Stub world for the SDF proxy: PubChem serves an SDF for cid 4091, the
primary Cactus endpoint answers 404 and the alternate answers 200. -/
def oracleSdfStub : Oracle :=
  { oracleAllFail with
    pubchemSdf := fun c =>
      if c = "4091" then Fetch.resp 200 "mock-sdf-content"
      else Fetch.transportError
    cactusSdf := fun _ _ => Fetch.resp 404 ""
    cactusSdfAlt := fun _ _ => Fetch.resp 200 "alt-sdf-content" }

namespace SdfRoute

/-- C6. A structure-proxy request with neither `cid` nor `smiles` is
answered 400 with no upstream call. -/
theorem sdf_missing_params_400 (o : Oracle) (get3d : Option String) :
    GET o none none get3d =
      (SdfResponse.jsonErr 400 "cid or smiles parameter required", []) :=
  rfl

/-- C7. A request carrying a (non-empty) `cid` performs the single PubChem
3D-record fetch for that cid: a 2xx upstream reply is forwarded verbatim
as a 200 response with content type `chemical/x-mdl-sdfile`, and a
non-2xx reply becomes an error response carrying the upstream status. -/
theorem sdf_cid_proxy (o : Oracle) (c : String) (smiles get3d : Option String)
    (st : Nat) (body : String)
    (hc : c ≠ "")
    (hresp : o.pubchemSdf c = Fetch.resp st body) :
    GET o (some c) smiles get3d =
      (if fetchOk st then SdfResponse.sdf 200 body "chemical/x-mdl-sdfile"
       else SdfResponse.jsonErr st "Failed to fetch SDF",
       [ExtCall.pubchemSdfCall c]) := by
  have ht : jsTruthy (some c) = true := by
    simp [jsTruthy, bne_iff_ne, hc]
  unfold GET
  simp only [ht, Bool.not_true, Bool.false_and, Bool.false_eq_true,
    if_false, if_true, Option.getD_some, hresp]
  split <;> rfl

/-- C7 witness: the spec's own test vector — `cid=4091` against a stub
upstream answering 200 with body "mock-sdf-content". -/
theorem sdf_cid_proxy_witness :
    ("4091" : String) ≠ "" ∧
    GET oracleSdfStub (some "4091") none none =
      (SdfResponse.sdf 200 "mock-sdf-content" "chemical/x-mdl-sdfile",
       [ExtCall.pubchemSdfCall "4091"]) :=
  ⟨by decide,
   sdf_cid_proxy oracleSdfStub "4091" none none 200 "mock-sdf-content"
     (by decide) rfl⟩

/-- C8. A request carrying a (non-empty) `smiles` and no `cid` whose
primary Cactus fetch replies non-2xx retries exactly one alternate
endpoint shape: an alternate 2xx reply is forwarded as a 200 response with
the alternate's body, and an alternate non-2xx reply becomes an error
response carrying the alternate's upstream status. -/
theorem sdf_smiles_alternate_retry (o : Oracle) (s : String)
    (get3d : Option String) (st1 : Nat) (b1 : String) (st2 : Nat) (b2 : String)
    (hs : s ≠ "")
    (h1 : o.cactusSdf s (get3d == some "true") = Fetch.resp st1 b1)
    (hfail : fetchOk st1 = false)
    (h2 : o.cactusSdfAlt s (get3d == some "true") = Fetch.resp st2 b2) :
    GET o none (some s) get3d =
      (if fetchOk st2 then SdfResponse.sdf 200 b2 "chemical/x-mdl-sdfile"
       else SdfResponse.jsonErr st2 "Failed to fetch SDF from Cactus",
       [ExtCall.cactusSdfCall s (get3d == some "true"),
        ExtCall.cactusSdfAltCall s (get3d == some "true")]) := by
  have hbs : (s != "") = true := by
    simp [bne_iff_ne, hs]
  unfold GET
  simp only [jsTruthy, hbs, Bool.not_true, Bool.not_false, Bool.true_and,
    Bool.and_false, Bool.false_and, Bool.false_eq_true, if_false, if_true,
    Option.getD_some, h1, hfail, h2]
  split <;> rfl

/-- C8 witness: the spec's own test vector — `smiles=CCO` where the
primary endpoint answers 404 and the alternate answers 200. -/
theorem sdf_smiles_alternate_retry_witness :
    ("CCO" : String) ≠ "" ∧ fetchOk 404 = false ∧
    GET oracleSdfStub none (some "CCO") (some "true") =
      (SdfResponse.sdf 200 "alt-sdf-content" "chemical/x-mdl-sdfile",
       [ExtCall.cactusSdfCall "CCO" true,
        ExtCall.cactusSdfAltCall "CCO" true]) :=
  ⟨by decide, by decide,
   sdf_smiles_alternate_retry oracleSdfStub "CCO" (some "true") 404 "" 200
     "alt-sdf-content" (by decide) rfl (by decide) rfl⟩

end SdfRoute

end MoleculeApi
